import Mathlib

/-!
# The ogolem MPI helper (`src/mpi_helper/ogompi.c`)

The helper is a set of C functions that forward to the MPI library.  The
library itself (the *substrate*) is external: it is modelled here as a
parameter, a record of state-passing functions over an arbitrary substrate
state `σ`.  Every substrate call made by the helper is recorded, together
with the answer the substrate gave, in a log of events, so that statements
such as "exactly one probe is issued" can be expressed.

Conventions of the embedding

* C `int` values are `Int`s.  The helper performs no arithmetic on them, only
  comparisons and copies, so no wrap-around can occur.
* A pointer argument through which the callee may write is translated as an
  in/out value: the content of the cell before the call is an argument, the
  content after the call is part of the answer.
* `int* data` of `ogo_MPI_Probe_bytes` is a cell of three `int`s, `Triple`.
* The `double` returned by `MPI_Wtime` is kept abstract (type `Time`); the
  helper only passes it on.
-/

namespace OgoMPI

/-! ## Data model -/

/-- Constants of `mpi.h` used by the helper.  The header belongs to the MPI
library, not to the repository, so the values are parameters. -/
structure MPIConsts where
  MPI_SUCCESS : Int
  MPI_ANY_SOURCE : Int
  MPI_ANY_TAG : Int
  MPI_COMM_WORLD : Int
  MPI_BYTE : Int
  MPI_CHAR : Int
deriving DecidableEq, Repr

/-- The `MPI_Status` record: the three public fields and the part private to
the library (from which `MPI_Get_count` derives the length). -/
structure MPI_Status where
  MPI_SOURCE : Int
  MPI_TAG : Int
  MPI_ERROR : Int
  internal : Int
deriving DecidableEq, Repr

/-- Content of a `void* buffer`: a sequence of bytes. -/
abbrev Buffer := List Nat

/-- The three `int`s behind `int* data`: `data[0]`, `data[1]`, `data[2]`. -/
structure Triple where
  d0 : Int
  d1 : Int
  d2 : Int
deriving DecidableEq, Repr

/-- The MPI library as seen by the helper.  Each operation takes the current
substrate state first and returns its answer together with the next state.
Cells written through a pointer appear both as argument (content before) and
in the answer (content after). -/
structure Substrate (σ : Type) (Time : Type) where
  /-- Library call `MPI_Init(argc, argv)`; a null pointer is `none`. -/
  MPI_Init : σ → Option Nat → Option Nat → Int × σ
  /-- Library call `MPI_Abort(comm, errorcode)`. -/
  MPI_Abort : σ → Int → Int → Int × σ
  /-- Library call `MPI_Finalize()`. -/
  MPI_Finalize : σ → Int × σ
  /-- Library call `MPI_Comm_rank(comm, rank)`: answer is the status code and `*rank`. -/
  MPI_Comm_rank : σ → Int → Int → Int × Int × σ
  /-- Library call `MPI_Comm_size(comm, size)`: answer is the status code and `*size`. -/
  MPI_Comm_size : σ → Int → Int → Int × Int × σ
  /-- Library call `MPI_Wtime()`. -/
  MPI_Wtime : σ → Time × σ
  /-- Library call `MPI_Probe(source, tag, comm, status)`: status code and `*status`. -/
  MPI_Probe : σ → Int → Int → Int → Int × MPI_Status × σ
  /-- Library call `MPI_Get_count(status, datatype, count)`: the last argument is the
  content of `*count` before the call; answer is status code and `*count`. -/
  MPI_Get_count : σ → MPI_Status → Int → Int → Int × Int × σ
  /-- Library call `MPI_Recv(buf, count, datatype, source, tag, comm, status)`: status
  code, buffer content after the call and `*status`. -/
  MPI_Recv :
    σ → Buffer → Int → Int → Int → Int → Int → Int × Buffer × MPI_Status × σ
  /-- Library call `MPI_Bcast(buffer, count, datatype, root, comm)`: status code and
  buffer content after the call. -/
  MPI_Bcast : σ → Buffer → Int → Int → Int → Int → Int × Buffer × σ
  /-- Library call `MPI_Send(buf, count, datatype, dest, tag, comm)`. -/
  MPI_Send : σ → Buffer → Int → Int → Int → Int → Int → Int × σ

/-- One substrate call together with the substrate's answer. -/
inductive Event (Time : Type) where
  | Init (argc argv : Option Nat) (ret : Int)
  | Abort (comm errorcode ret : Int)
  | Finalize (ret : Int)
  | Comm_rank (comm rankIn ret rankOut : Int)
  | Comm_size (comm sizeIn ret sizeOut : Int)
  | Wtime (t : Time)
  | Probe (source tag comm ret : Int) (stat : MPI_Status)
  | Get_count (stat : MPI_Status) (datatype countIn ret countOut : Int)
  | Recv (buf : Buffer) (count datatype source tag comm ret : Int) (bufOut : Buffer)
      (stat : MPI_Status)
  | Bcast (buf : Buffer) (count datatype root comm ret : Int) (bufOut : Buffer)
  | Send (buf : Buffer) (count datatype dest tag comm ret : Int)
deriving DecidableEq, Repr

/-- Substrate state plus the log of the calls made so far. -/
structure World (σ : Type) (Time : Type) where
  st : σ
  log : List (Event Time)

/-- Computations of the helper: state passing over `World`. -/
def Shim (σ : Type) (Time : Type) (α : Type) : Type := World σ Time → α × World σ Time

namespace Shim

variable {σ Time α β : Type}

/-- Return a value without touching the world. -/
def ret (a : α) : Shim σ Time α := fun w => (a, w)

/-- Sequencing. -/
def andThen (m : Shim σ Time α) (f : α → Shim σ Time β) : Shim σ Time β :=
  fun w => f (m w).1 (m w).2

/-- Run a computation from substrate state `s` with an empty log. -/
def run (m : Shim σ Time α) (s : σ) : α × World σ Time := m ⟨s, []⟩

end Shim

section Calls

variable {σ Time : Type}

/-! ## Logged substrate calls -/

/-- Call `MPI_Init` and log it. -/
def call_MPI_Init (S : Substrate σ Time) (argc argv : Option Nat) : Shim σ Time Int :=
  fun w =>
    let r := S.MPI_Init w.st argc argv
    (r.1, ⟨r.2, w.log ++ [Event.Init argc argv r.1]⟩)

/-- Call `MPI_Abort` and log it. -/
def call_MPI_Abort (S : Substrate σ Time) (comm errorcode : Int) : Shim σ Time Int :=
  fun w =>
    let r := S.MPI_Abort w.st comm errorcode
    (r.1, ⟨r.2, w.log ++ [Event.Abort comm errorcode r.1]⟩)

/-- Call `MPI_Finalize` and log it. -/
def call_MPI_Finalize (S : Substrate σ Time) : Shim σ Time Int :=
  fun w =>
    let r := S.MPI_Finalize w.st
    (r.1, ⟨r.2, w.log ++ [Event.Finalize r.1]⟩)

/-- Call `MPI_Comm_rank` and log it. -/
def call_MPI_Comm_rank (S : Substrate σ Time) (comm rank : Int) : Shim σ Time (Int × Int) :=
  fun w =>
    let r := S.MPI_Comm_rank w.st comm rank
    ((r.1, r.2.1), ⟨r.2.2, w.log ++ [Event.Comm_rank comm rank r.1 r.2.1]⟩)

/-- Call `MPI_Comm_size` and log it. -/
def call_MPI_Comm_size (S : Substrate σ Time) (comm size : Int) : Shim σ Time (Int × Int) :=
  fun w =>
    let r := S.MPI_Comm_size w.st comm size
    ((r.1, r.2.1), ⟨r.2.2, w.log ++ [Event.Comm_size comm size r.1 r.2.1]⟩)

/-- Call `MPI_Wtime` and log it. -/
def call_MPI_Wtime (S : Substrate σ Time) : Shim σ Time Time :=
  fun w =>
    let r := S.MPI_Wtime w.st
    (r.1, ⟨r.2, w.log ++ [Event.Wtime r.1]⟩)

/-- Call `MPI_Probe` and log it. -/
def call_MPI_Probe (S : Substrate σ Time) (source tag comm : Int) :
    Shim σ Time (Int × MPI_Status) :=
  fun w =>
    let r := S.MPI_Probe w.st source tag comm
    ((r.1, r.2.1), ⟨r.2.2, w.log ++ [Event.Probe source tag comm r.1 r.2.1]⟩)

/-- Call `MPI_Get_count` and log it. -/
def call_MPI_Get_count (S : Substrate σ Time) (stat : MPI_Status) (datatype count : Int) :
    Shim σ Time (Int × Int) :=
  fun w =>
    let r := S.MPI_Get_count w.st stat datatype count
    ((r.1, r.2.1), ⟨r.2.2, w.log ++ [Event.Get_count stat datatype count r.1 r.2.1]⟩)

/-- Call `MPI_Recv` and log it. -/
def call_MPI_Recv (S : Substrate σ Time) (buf : Buffer) (count datatype source tag comm : Int) :
    Shim σ Time (Int × Buffer × MPI_Status) :=
  fun w =>
    let r := S.MPI_Recv w.st buf count datatype source tag comm
    ((r.1, r.2.1, r.2.2.1),
      ⟨r.2.2.2, w.log ++ [Event.Recv buf count datatype source tag comm r.1 r.2.1 r.2.2.1]⟩)

/-- Call `MPI_Bcast` and log it. -/
def call_MPI_Bcast (S : Substrate σ Time) (buf : Buffer) (count datatype root comm : Int) :
    Shim σ Time (Int × Buffer) :=
  fun w =>
    let r := S.MPI_Bcast w.st buf count datatype root comm
    ((r.1, r.2.1), ⟨r.2.2, w.log ++ [Event.Bcast buf count datatype root comm r.1 r.2.1]⟩)

/-- Call `MPI_Send` and log it. -/
def call_MPI_Send (S : Substrate σ Time) (buf : Buffer) (count datatype dest tag comm : Int) :
    Shim σ Time Int :=
  fun w =>
    let r := S.MPI_Send w.st buf count datatype dest tag comm
    (r.1, ⟨r.2, w.log ++ [Event.Send buf count datatype dest tag comm r.1]⟩)

/-! ## The helper functions of `ogompi.c` -/

/-- The C function `int ogo_MPI_Init()`. -/
def ogo_MPI_Init (S : Substrate σ Time) : Shim σ Time Int :=
  call_MPI_Init S none none

/-- The C function `int ogo_MPI_Abort(int err)`. -/
def ogo_MPI_Abort (c : MPIConsts) (S : Substrate σ Time) (err : Int) : Shim σ Time Int :=
  call_MPI_Abort S c.MPI_COMM_WORLD err

/-- The C function `int ogo_MPI_Finalize()`. -/
def ogo_MPI_Finalize (S : Substrate σ Time) : Shim σ Time Int :=
  call_MPI_Finalize S

/-- The C function `int ogo_MPI_Comm_rank(int* rank)`: returns the status code and `*rank`. -/
def ogo_MPI_Comm_rank (c : MPIConsts) (S : Substrate σ Time) (rank : Int) :
    Shim σ Time (Int × Int) :=
  call_MPI_Comm_rank S c.MPI_COMM_WORLD rank

/-- The C function `int ogo_MPI_Comm_size(int* size)`: returns the status code and `*size`. -/
def ogo_MPI_Comm_size (c : MPIConsts) (S : Substrate σ Time) (size : Int) :
    Shim σ Time (Int × Int) :=
  call_MPI_Comm_size S c.MPI_COMM_WORLD size

/-- The C function `double ogo_MPI_Wtime()`. -/
def ogo_MPI_Wtime (S : Substrate σ Time) : Shim σ Time Time :=
  call_MPI_Wtime S

/-- The C function `int ogo_MPI_Probe_bytes(int* data)`: returns the status code and the
content of `data` after the call. -/
def ogo_MPI_Probe_bytes (c : MPIConsts) (S : Substrate σ Time) (data : Triple) :
    Shim σ Time (Int × Triple) :=
  let mySource : Int := if data.d0 = -42 then c.MPI_ANY_SOURCE else data.d0
  let myTag : Int := if data.d1 = -42 then c.MPI_ANY_TAG else data.d1
  (call_MPI_Probe S mySource myTag c.MPI_COMM_WORLD).andThen fun p =>
    let ret := p.1
    let stat := p.2
    if ret ≠ c.MPI_SUCCESS then Shim.ret (ret, data)
    else
      let data1 : Triple :=
        if mySource = c.MPI_ANY_SOURCE then { data with d0 := stat.MPI_SOURCE } else data
      let data2 : Triple :=
        if myTag = c.MPI_ANY_TAG then { data1 with d1 := stat.MPI_TAG } else data1
      -- assumes bytes
      let count : Int := 0
      (call_MPI_Get_count S stat c.MPI_BYTE count).andThen fun g =>
        let ret2 := g.1
        let count := g.2
        let data3 : Triple := { data2 with d2 := count }
        Shim.ret (ret2, data3)

/-- The C function `int ogo_MPI_Recv_bytes(void* buffer, int count, int source, int tag)`:
returns the status code and the buffer content after the call; the local
`MPI_Status` is dropped. -/
def ogo_MPI_Recv_bytes (c : MPIConsts) (S : Substrate σ Time) (buffer : Buffer)
    (count source tag : Int) : Shim σ Time (Int × Buffer) :=
  (call_MPI_Recv S buffer count c.MPI_BYTE source tag c.MPI_COMM_WORLD).andThen fun r =>
    Shim.ret (r.1, r.2.1)

/-- The C function `int ogo_MPI_Bcast_char(void* buffer, int count, int root)`. -/
def ogo_MPI_Bcast_char (c : MPIConsts) (S : Substrate σ Time) (buffer : Buffer)
    (count root : Int) : Shim σ Time (Int × Buffer) :=
  call_MPI_Bcast S buffer count c.MPI_CHAR root c.MPI_COMM_WORLD

/-- The C function `int ogo_MPI_Send_bytes(void* buffer, int count, int dest, int tag)`. -/
def ogo_MPI_Send_bytes (c : MPIConsts) (S : Substrate σ Time) (buffer : Buffer)
    (count dest tag : Int) : Shim σ Time Int :=
  call_MPI_Send S buffer count c.MPI_BYTE dest tag c.MPI_COMM_WORLD

end Calls

/-! ## Sample constants and substrates, used to evaluate the helper -/

/-- The values the MPICH header gives to the constants. -/
def mpich : MPIConsts :=
  { MPI_SUCCESS := 0
    MPI_ANY_SOURCE := -2
    MPI_ANY_TAG := -1
    MPI_COMM_WORLD := 0x44000000
    MPI_BYTE := 0x4c00010d
    MPI_CHAR := 0x4c000101 }

/-- A stateless substrate that answers every probe with `(pret, stat)` and
every count query with status `cret`, storing `v` through the count pointer
when `cout = some v` and storing nothing when `cout = none`.  All other
operations answer with status `0` and change nothing. -/
def scripted (pret : Int) (stat : MPI_Status) (cret : Int) (cout : Option Int) :
    Substrate Unit Nat :=
  { MPI_Init := fun s _ _ => (0, s)
    MPI_Abort := fun s _ _ => (0, s)
    MPI_Finalize := fun s => (0, s)
    MPI_Comm_rank := fun s _ rank => (0, rank, s)
    MPI_Comm_size := fun s _ size => (0, size, s)
    MPI_Wtime := fun s => (0, s)
    MPI_Probe := fun s _ _ _ => (pret, stat, s)
    MPI_Get_count := fun s _ _ count => (cret, cout.getD count, s)
    MPI_Recv := fun s buf _ _ _ _ _ => (0, buf, stat, s)
    MPI_Bcast := fun s buf _ _ _ _ => (0, buf, s)
    MPI_Send := fun s _ _ _ _ _ _ => (0, s) }

/-- A pending message of the sample mailbox. -/
structure Msg where
  source : Int
  tag : Int
  payload : Buffer
deriving DecidableEq, Repr

/-- Envelope matching of the sample mailbox. -/
def Msg.matches (c : MPIConsts) (source tag : Int) (m : Msg) : Bool :=
  (source == c.MPI_ANY_SOURCE || source == m.source) &&
    (tag == c.MPI_ANY_TAG || tag == m.tag)

/-- A single-process sample substrate whose state is the list of pending
messages.  A probe reports the first pending message that matches and leaves
it pending (status `15` when there is none, where a real library would
block); a count query reads the length kept in the status; a receive removes
the first match.  Time is a constant. -/
def mailbox (c : MPIConsts) : Substrate (List Msg) Nat :=
  { MPI_Init := fun s _ _ => (c.MPI_SUCCESS, s)
    MPI_Abort := fun s _ _ => (c.MPI_SUCCESS, s)
    MPI_Finalize := fun s => (c.MPI_SUCCESS, s)
    MPI_Comm_rank := fun s _ _ => (c.MPI_SUCCESS, 0, s)
    MPI_Comm_size := fun s _ _ => (c.MPI_SUCCESS, 1, s)
    MPI_Wtime := fun s => (0, s)
    MPI_Probe := fun s source tag _ =>
      match s.find? (Msg.matches c source tag) with
      | some m => (c.MPI_SUCCESS, ⟨m.source, m.tag, c.MPI_SUCCESS, m.payload.length⟩, s)
      | none => (15, ⟨0, 0, 15, 0⟩, s)
    MPI_Get_count := fun s stat datatype count =>
      if datatype = c.MPI_BYTE then (c.MPI_SUCCESS, stat.internal, s) else (3, count, s)
    MPI_Recv := fun s buf count _ source tag _ =>
      match s.find? (Msg.matches c source tag) with
      | some m =>
        if (m.payload.length : Int) ≤ count then
          (c.MPI_SUCCESS, m.payload ++ buf.drop m.payload.length,
            ⟨m.source, m.tag, c.MPI_SUCCESS, m.payload.length⟩, s.erase m)
        else (14, buf, ⟨m.source, m.tag, 14, m.payload.length⟩, s.erase m)
      | none => (15, buf, ⟨0, 0, 15, 0⟩, s)
    MPI_Bcast := fun s buf _ _ _ _ => (c.MPI_SUCCESS, buf, s)
    MPI_Send := fun s buf count _ dest tag _ =>
      if dest = 0 then (c.MPI_SUCCESS, s ++ [⟨0, tag, buf.take count.toNat⟩])
      else (c.MPI_SUCCESS, s) }

/-- The delivery guarantee of the library for one message, as a property of
the substrate.  `SA` is the library as seen by the sending process (rank
`a`), `SB` the library as seen by the receiving process (rank `b`), both
acting on the same library state.  In state `s`, once a send of the bytes `B`
to `b` with tag `T`, datatype `MPI_BYTE`, on `MPI_COMM_WORLD` has succeeded,
a receive from `a` with tag `T`, datatype `MPI_BYTE`, on `MPI_COMM_WORLD` and
a count of at least the length of `B` succeeds and leaves `B` in the first
bytes of the receive buffer. -/
def DeliveryGuarantee {σ Time : Type} (c : MPIConsts) (SA SB : Substrate σ Time)
    (a b : Int) (s : σ) (B : Buffer) (T : Int) : Prop :=
  ∀ (R : Buffer) (count : Int),
    (SA.MPI_Send s B B.length c.MPI_BYTE b T c.MPI_COMM_WORLD).1 = c.MPI_SUCCESS →
    (B.length : Int) ≤ count →
    (SB.MPI_Recv (SA.MPI_Send s B B.length c.MPI_BYTE b T c.MPI_COMM_WORLD).2
        R count c.MPI_BYTE a T c.MPI_COMM_WORLD).1 = c.MPI_SUCCESS ∧
    (SB.MPI_Recv (SA.MPI_Send s B B.length c.MPI_BYTE b T c.MPI_COMM_WORLD).2
        R count c.MPI_BYTE a T c.MPI_COMM_WORLD).2.1.take B.length = B

/-! ## Auxiliary facts about `ogo_MPI_Probe_bytes` -/

section ProbeLemmas

variable {σ Time : Type}

/-- The source the helper asks the substrate for. -/
def requestedSource (c : MPIConsts) (data : Triple) : Int :=
  if data.d0 = -42 then c.MPI_ANY_SOURCE else data.d0

/-- The tag the helper asks the substrate for. -/
def requestedTag (c : MPIConsts) (data : Triple) : Int :=
  if data.d1 = -42 then c.MPI_ANY_TAG else data.d1

/-- The triple the helper leaves behind after a successful probe with status
`stat` and a count cell holding `n`. -/
def resolvedTriple (c : MPIConsts) (data : Triple) (stat : MPI_Status) (n : Int) : Triple :=
  ⟨if requestedSource c data = c.MPI_ANY_SOURCE then stat.MPI_SOURCE else data.d0,
   if requestedTag c data = c.MPI_ANY_TAG then stat.MPI_TAG else data.d1, n⟩

/-- Run of `ogo_MPI_Probe_bytes` when the probe does not succeed. -/
theorem probe_run_fail (c : MPIConsts) (S : Substrate σ Time) (s : σ) (data : Triple)
    (h : (S.MPI_Probe s (requestedSource c data) (requestedTag c data) c.MPI_COMM_WORLD).1
      ≠ c.MPI_SUCCESS) :
    (ogo_MPI_Probe_bytes c S data).run s =
      (((S.MPI_Probe s (requestedSource c data) (requestedTag c data) c.MPI_COMM_WORLD).1, data),
        ⟨(S.MPI_Probe s (requestedSource c data) (requestedTag c data) c.MPI_COMM_WORLD).2.2,
         [Event.Probe (requestedSource c data) (requestedTag c data) c.MPI_COMM_WORLD
            (S.MPI_Probe s (requestedSource c data) (requestedTag c data) c.MPI_COMM_WORLD).1
            (S.MPI_Probe s (requestedSource c data) (requestedTag c data)
              c.MPI_COMM_WORLD).2.1]⟩) := by
  simp only [requestedSource, requestedTag] at h ⊢
  simp [ogo_MPI_Probe_bytes, Shim.run, Shim.andThen, Shim.ret, call_MPI_Probe, h]

/-- Run of `ogo_MPI_Probe_bytes` when the probe succeeds. -/
theorem probe_run_ok (c : MPIConsts) (S : Substrate σ Time) (s : σ) (data : Triple)
    (h : (S.MPI_Probe s (requestedSource c data) (requestedTag c data) c.MPI_COMM_WORLD).1
      = c.MPI_SUCCESS) :
    (ogo_MPI_Probe_bytes c S data).run s =
      (((S.MPI_Get_count
            (S.MPI_Probe s (requestedSource c data) (requestedTag c data) c.MPI_COMM_WORLD).2.2
            (S.MPI_Probe s (requestedSource c data) (requestedTag c data) c.MPI_COMM_WORLD).2.1
            c.MPI_BYTE 0).1,
        resolvedTriple c data
          (S.MPI_Probe s (requestedSource c data) (requestedTag c data) c.MPI_COMM_WORLD).2.1
          (S.MPI_Get_count
            (S.MPI_Probe s (requestedSource c data) (requestedTag c data) c.MPI_COMM_WORLD).2.2
            (S.MPI_Probe s (requestedSource c data) (requestedTag c data) c.MPI_COMM_WORLD).2.1
            c.MPI_BYTE 0).2.1),
        ⟨(S.MPI_Get_count
            (S.MPI_Probe s (requestedSource c data) (requestedTag c data) c.MPI_COMM_WORLD).2.2
            (S.MPI_Probe s (requestedSource c data) (requestedTag c data) c.MPI_COMM_WORLD).2.1
            c.MPI_BYTE 0).2.2,
         [Event.Probe (requestedSource c data) (requestedTag c data) c.MPI_COMM_WORLD
            c.MPI_SUCCESS
            (S.MPI_Probe s (requestedSource c data) (requestedTag c data)
              c.MPI_COMM_WORLD).2.1,
          Event.Get_count
            (S.MPI_Probe s (requestedSource c data) (requestedTag c data) c.MPI_COMM_WORLD).2.1
            c.MPI_BYTE 0
            (S.MPI_Get_count
              (S.MPI_Probe s (requestedSource c data) (requestedTag c data)
                c.MPI_COMM_WORLD).2.2
              (S.MPI_Probe s (requestedSource c data) (requestedTag c data)
                c.MPI_COMM_WORLD).2.1
              c.MPI_BYTE 0).1
            (S.MPI_Get_count
              (S.MPI_Probe s (requestedSource c data) (requestedTag c data)
                c.MPI_COMM_WORLD).2.2
              (S.MPI_Probe s (requestedSource c data) (requestedTag c data)
                c.MPI_COMM_WORLD).2.1
              c.MPI_BYTE 0).2.1]⟩) := by
  simp only [requestedSource, requestedTag, resolvedTriple] at h ⊢
  simp only [ogo_MPI_Probe_bytes, Shim.run, Shim.andThen, Shim.ret, call_MPI_Probe,
    call_MPI_Get_count, h, ne_eq, not_true_eq_false, if_false, List.nil_append,
    List.singleton_append]
  by_cases h0 : data.d0 = -42 <;> by_cases h1 : data.d1 = -42 <;>
    by_cases a0 : data.d0 = c.MPI_ANY_SOURCE <;> by_cases a1 : data.d1 = c.MPI_ANY_TAG <;>
    simp [h0, h1, a0, a1]

/-- Every run of `ogo_MPI_Probe_bytes` has one of two shapes: a failed probe
alone, with the triple untouched, or a successful probe followed by one count
query, with the triple resolved. -/
theorem probe_run_cases (c : MPIConsts) (S : Substrate σ Time) (s : σ) (data : Triple) :
    (∃ pret stat st, pret ≠ c.MPI_SUCCESS ∧
      (ogo_MPI_Probe_bytes c S data).run s =
        ((pret, data),
          ⟨st, [Event.Probe (requestedSource c data) (requestedTag c data) c.MPI_COMM_WORLD
            pret stat]⟩)) ∨
    (∃ stat cret n st,
      (ogo_MPI_Probe_bytes c S data).run s =
        ((cret, resolvedTriple c data stat n),
          ⟨st, [Event.Probe (requestedSource c data) (requestedTag c data) c.MPI_COMM_WORLD
            c.MPI_SUCCESS stat, Event.Get_count stat c.MPI_BYTE 0 cret n]⟩)) := by
  by_cases h : (S.MPI_Probe s (requestedSource c data) (requestedTag c data)
      c.MPI_COMM_WORLD).1 = c.MPI_SUCCESS
  · exact Or.inr ⟨_, _, _, _, probe_run_ok c S s data h⟩
  · exact Or.inl ⟨_, _, _, h, probe_run_fail c S s data h⟩

end ProbeLemmas

/-! ## Properties of `ogo_MPI_Probe_bytes` -/

section ProbeClaims

variable {σ Time : Type}

/-- C1 (wildcard resolution).  Whenever the probe issued by
`ogo_MPI_Probe_bytes` succeeds with status `stat`: if `data[0]` was `-42` the
substrate was asked for `MPI_ANY_SOURCE` and `data[0]` becomes
`stat.MPI_SOURCE`; independently, if `data[1]` was `-42` the substrate was
asked for `MPI_ANY_TAG` and `data[1]` becomes `stat.MPI_TAG`; with both
wildcarded the triple becomes source, tag and the byte count that the count
query on `stat` reported. -/
theorem probe_bytes_wildcard_resolution (c : MPIConsts) (S : Substrate σ Time) (s : σ)
    (data : Triple) (src tag comm : Int) (stat : MPI_Status)
    (h : Event.Probe src tag comm c.MPI_SUCCESS stat ∈
      ((ogo_MPI_Probe_bytes c S data).run s).2.log) :
    (data.d0 = -42 → src = c.MPI_ANY_SOURCE ∧
      ((ogo_MPI_Probe_bytes c S data).run s).1.2.d0 = stat.MPI_SOURCE) ∧
    (data.d1 = -42 → tag = c.MPI_ANY_TAG ∧
      ((ogo_MPI_Probe_bytes c S data).run s).1.2.d1 = stat.MPI_TAG) ∧
    (data.d0 = -42 → data.d1 = -42 → ∃ cret n,
      Event.Get_count stat c.MPI_BYTE 0 cret n ∈
        ((ogo_MPI_Probe_bytes c S data).run s).2.log ∧
      ((ogo_MPI_Probe_bytes c S data).run s).1.2 = ⟨stat.MPI_SOURCE, stat.MPI_TAG, n⟩) := by
  rcases probe_run_cases c S s data with ⟨pret, st0, w, hne, hrun⟩ | ⟨st0, cret, n, w, hrun⟩
  · rw [hrun] at h
    simp at h
    exact absurd h.2.2.2.1.symm hne
  · rw [hrun] at h ⊢
    simp at h
    obtain ⟨hs, ht, _, hst⟩ := h
    subst hst
    refine ⟨fun h0 => ?_, fun h1 => ?_, fun h0 h1 => ⟨cret, n, ?_, ?_⟩⟩
    · simp [hs, requestedSource, resolvedTriple, h0]
    · simp [ht, requestedTag, resolvedTriple, h1]
    · simp
    · simp [requestedSource, requestedTag, resolvedTriple, h0, h1]

/-- C1, evaluated: both fields wildcarded, the substrate reports a message
from rank 3 with tag 5 and 8 bytes. -/
theorem probe_bytes_wildcard_resolution_witness :
    Event.Probe (-2) (-1) 0x44000000 mpich.MPI_SUCCESS ⟨3, 5, 0, 8⟩ ∈
        ((ogo_MPI_Probe_bytes mpich (scripted 0 ⟨3, 5, 0, 8⟩ 0 (some 8)) ⟨-42, -42, 7⟩).run
          ()).2.log ∧
      ((ogo_MPI_Probe_bytes mpich (scripted 0 ⟨3, 5, 0, 8⟩ 0 (some 8)) ⟨-42, -42, 7⟩).run
          ()).1.2 = ⟨3, 5, 8⟩ ∧
      ((-42 : Int) = -42 → (-2 : Int) = mpich.MPI_ANY_SOURCE ∧
        ((ogo_MPI_Probe_bytes mpich (scripted 0 ⟨3, 5, 0, 8⟩ 0 (some 8)) ⟨-42, -42, 7⟩).run
          ()).1.2.d0 = 3) :=
  ⟨by decide, by decide,
    (probe_bytes_wildcard_resolution mpich (scripted 0 ⟨3, 5, 0, 8⟩ 0 (some 8)) ()
      ⟨-42, -42, 7⟩ (-2) (-1) 0x44000000 ⟨3, 5, 0, 8⟩ (by decide)).1⟩

/-- C2, as stated, fails: with the MPICH constants `data[0] = -2` differs
from `-42` (it is `MPI_ANY_SOURCE`), the call succeeds, and `data[0]` is
overwritten with the source `3` of the matched message; likewise
`data[1] = -1` (`MPI_ANY_TAG`) is overwritten with the tag `5`. -/
theorem probe_bytes_any_constant_overwritten :
    (⟨-2, -1, 0⟩ : Triple).d0 ≠ -42 ∧ (⟨-2, -1, 0⟩ : Triple).d1 ≠ -42 ∧
      ((ogo_MPI_Probe_bytes mpich (scripted 0 ⟨3, 5, 0, 8⟩ 0 (some 8)) ⟨-2, -1, 0⟩).run
        ()).1.1 = mpich.MPI_SUCCESS ∧
      ((ogo_MPI_Probe_bytes mpich (scripted 0 ⟨3, 5, 0, 8⟩ 0 (some 8)) ⟨-2, -1, 0⟩).run
        ()).1.2.d0 = 3 ∧
      ((ogo_MPI_Probe_bytes mpich (scripted 0 ⟨3, 5, 0, 8⟩ 0 (some 8)) ⟨-2, -1, 0⟩).run
        ()).1.2.d1 = 5 ∧
      ((ogo_MPI_Probe_bytes mpich (scripted 0 ⟨3, 5, 0, 8⟩ 0 (some 8)) ⟨-2, -1, 0⟩).run
        ()).1.2.d0 ≠ (⟨-2, -1, 0⟩ : Triple).d0 ∧
      ((ogo_MPI_Probe_bytes mpich (scripted 0 ⟨3, 5, 0, 8⟩ 0 (some 8)) ⟨-2, -1, 0⟩).run
        ()).1.2.d1 ≠ (⟨-2, -1, 0⟩ : Triple).d1 := by
  decide

/-- C2 (amended).  A field is treated as a wildcard exactly when it equals
`-42` or the library's own match-any constant.  A source field that differs
from `-42` is the source the substrate is probed for, and if it also differs
from `MPI_ANY_SOURCE` then `data[0]` equals its input value after the call;
independently, a tag field that differs from `-42` is the tag the substrate
is probed for, and if it also differs from `MPI_ANY_TAG` then `data[1]`
equals its input value after the call.  After a successful probe with status
`stat`, `data[0]` is `stat.MPI_SOURCE` if its input value was `-42` or
`MPI_ANY_SOURCE` and its input value otherwise, and `data[1]` is
`stat.MPI_TAG` if its input value was `-42` or `MPI_ANY_TAG` and its input
value otherwise. -/
theorem probe_bytes_exact_fields (c : MPIConsts) (S : Substrate σ Time) (s : σ)
    (data : Triple) :
    (data.d0 ≠ -42 →
      (∃ tag ret stat, ((ogo_MPI_Probe_bytes c S data).run s).2.log.head? =
        some (Event.Probe data.d0 tag c.MPI_COMM_WORLD ret stat)) ∧
      (data.d0 ≠ c.MPI_ANY_SOURCE →
        ((ogo_MPI_Probe_bytes c S data).run s).1.2.d0 = data.d0)) ∧
    (data.d1 ≠ -42 →
      (∃ src ret stat, ((ogo_MPI_Probe_bytes c S data).run s).2.log.head? =
        some (Event.Probe src data.d1 c.MPI_COMM_WORLD ret stat)) ∧
      (data.d1 ≠ c.MPI_ANY_TAG →
        ((ogo_MPI_Probe_bytes c S data).run s).1.2.d1 = data.d1)) ∧
    (∀ src tag comm stat,
      Event.Probe src tag comm c.MPI_SUCCESS stat ∈
        ((ogo_MPI_Probe_bytes c S data).run s).2.log →
      ((ogo_MPI_Probe_bytes c S data).run s).1.2.d0 =
        (if data.d0 = -42 ∨ data.d0 = c.MPI_ANY_SOURCE then stat.MPI_SOURCE else data.d0) ∧
      ((ogo_MPI_Probe_bytes c S data).run s).1.2.d1 =
        (if data.d1 = -42 ∨ data.d1 = c.MPI_ANY_TAG then stat.MPI_TAG else data.d1)) := by
  rcases probe_run_cases c S s data with ⟨pret, st0, w, hne, hrun⟩ | ⟨st0, cret, n, w, hrun⟩
  · rw [hrun]
    refine ⟨fun h0 => ⟨⟨requestedTag c data, pret, st0, ?_⟩, fun _ => rfl⟩,
      fun h1 => ⟨⟨requestedSource c data, pret, st0, ?_⟩, fun _ => rfl⟩, ?_⟩
    · simp [requestedSource, h0]
    · simp [requestedTag, h1]
    · intro src tag comm stat hmem
      simp at hmem
      exact absurd hmem.2.2.2.1.symm hne
  · rw [hrun]
    refine ⟨fun h0 => ⟨⟨requestedTag c data, c.MPI_SUCCESS, st0, ?_⟩, fun a0 => ?_⟩,
      fun h1 => ⟨⟨requestedSource c data, c.MPI_SUCCESS, st0, ?_⟩, fun a1 => ?_⟩, ?_⟩
    · simp [requestedSource, h0]
    · simp [resolvedTriple, requestedSource, h0, a0]
    · simp [requestedTag, h1]
    · simp [resolvedTriple, requestedTag, h1, a1]
    · intro src tag comm stat hmem
      simp at hmem
      obtain ⟨_, _, _, hst⟩ := hmem
      subst hst
      constructor
      · by_cases h0 : data.d0 = -42 <;> by_cases a0 : data.d0 = c.MPI_ANY_SOURCE <;>
          simp [resolvedTriple, requestedSource, h0, a0]
      · by_cases h1 : data.d1 = -42 <;> by_cases a1 : data.d1 = c.MPI_ANY_TAG <;>
          simp [resolvedTriple, requestedTag, h1, a1]

/-- C2 (amended), evaluated: an exact request for rank 3 and tag 5 keeps
`data[0] = 3`, while a request whose source is `MPI_ANY_SOURCE = -2` itself
has `data[0]` replaced by the source `3` of the status and keeps the exact
tag `5`. -/
theorem probe_bytes_exact_fields_witness :
    ((⟨3, 5, 0⟩ : Triple).d0 ≠ -42 ∧ (⟨3, 5, 0⟩ : Triple).d0 ≠ mpich.MPI_ANY_SOURCE ∧
      ((ogo_MPI_Probe_bytes mpich (scripted 0 ⟨3, 5, 0, 8⟩ 0 (some 8)) ⟨3, 5, 0⟩).run
        ()).1.2.d0 = 3) ∧
    (Event.Probe (-2) 5 0x44000000 mpich.MPI_SUCCESS ⟨3, 5, 0, 8⟩ ∈
        ((ogo_MPI_Probe_bytes mpich (scripted 0 ⟨3, 5, 0, 8⟩ 0 (some 8)) ⟨-2, 5, 0⟩).run
          ()).2.log ∧
      ((ogo_MPI_Probe_bytes mpich (scripted 0 ⟨3, 5, 0, 8⟩ 0 (some 8)) ⟨-2, 5, 0⟩).run
          ()).1.2 = ⟨3, 5, 8⟩ ∧
      ((ogo_MPI_Probe_bytes mpich (scripted 0 ⟨3, 5, 0, 8⟩ 0 (some 8)) ⟨-2, 5, 0⟩).run
          ()).1.2.d0 =
        (if (⟨-2, 5, 0⟩ : Triple).d0 = -42 ∨ (⟨-2, 5, 0⟩ : Triple).d0 = mpich.MPI_ANY_SOURCE
          then (⟨3, 5, 0, 8⟩ : MPI_Status).MPI_SOURCE else (⟨-2, 5, 0⟩ : Triple).d0)) :=
  ⟨⟨by decide, by decide,
    ((probe_bytes_exact_fields mpich (scripted 0 ⟨3, 5, 0, 8⟩ 0 (some 8)) ()
      ⟨3, 5, 0⟩).1 (by decide)).2 (by decide)⟩,
   ⟨by decide, by decide,
    ((probe_bytes_exact_fields mpich (scripted 0 ⟨3, 5, 0, 8⟩ 0 (some 8)) ()
      ⟨-2, 5, 0⟩).2.2 (-2) 5 0x44000000 ⟨3, 5, 0, 8⟩ (by decide)).1⟩⟩

/-- C3 (byte length).  Whenever the probe issued by `ogo_MPI_Probe_bytes`
succeeds with status `stat`, the helper makes one count query on `stat` with
`MPI_BYTE` (count cell initially `0`) and `data[2]` after the call is the
count that query left in the cell, whatever the input triple was. -/
theorem probe_bytes_length (c : MPIConsts) (S : Substrate σ Time) (s : σ)
    (data : Triple) (src tag comm : Int) (stat : MPI_Status)
    (h : Event.Probe src tag comm c.MPI_SUCCESS stat ∈
      ((ogo_MPI_Probe_bytes c S data).run s).2.log) :
    ∃ st cret n,
      S.MPI_Get_count st stat c.MPI_BYTE 0 =
        (cret, n, ((ogo_MPI_Probe_bytes c S data).run s).2.st) ∧
      ((ogo_MPI_Probe_bytes c S data).run s).2.log =
        [Event.Probe src tag comm c.MPI_SUCCESS stat,
          Event.Get_count stat c.MPI_BYTE 0 cret n] ∧
      ((ogo_MPI_Probe_bytes c S data).run s).1.2.d2 = n := by
  by_cases hp : (S.MPI_Probe s (requestedSource c data) (requestedTag c data)
      c.MPI_COMM_WORLD).1 = c.MPI_SUCCESS
  · rw [probe_run_ok c S s data hp] at h ⊢
    simp at h
    obtain ⟨hs, ht, hc, hst⟩ := h
    subst hs ht hc hst
    exact ⟨_, _, _, rfl, rfl, rfl⟩
  · rw [probe_run_fail c S s data hp] at h
    simp at h
    exact absurd h.2.2.2.1.symm hp

/-- C3, evaluated on the sample mailbox: one pending message of four bytes
from rank 2 with tag 9, requested exactly; the stale `data[2] = 77` is
replaced by `4`. -/
theorem probe_bytes_length_witness :
    Event.Probe 2 9 0x44000000 mpich.MPI_SUCCESS ⟨2, 9, 0, 4⟩ ∈
        ((ogo_MPI_Probe_bytes mpich (mailbox mpich) ⟨2, 9, 77⟩).run
          [⟨2, 9, [1, 2, 3, 4]⟩]).2.log ∧
      ((ogo_MPI_Probe_bytes mpich (mailbox mpich) ⟨2, 9, 77⟩).run
          [⟨2, 9, [1, 2, 3, 4]⟩]).1.2.d2 = 4 ∧
      ∃ st cret n,
        (mailbox mpich).MPI_Get_count st ⟨2, 9, 0, 4⟩ mpich.MPI_BYTE 0 =
          (cret, n, ((ogo_MPI_Probe_bytes mpich (mailbox mpich) ⟨2, 9, 77⟩).run
            [⟨2, 9, [1, 2, 3, 4]⟩]).2.st) ∧
        ((ogo_MPI_Probe_bytes mpich (mailbox mpich) ⟨2, 9, 77⟩).run
          [⟨2, 9, [1, 2, 3, 4]⟩]).2.log =
          [Event.Probe 2 9 0x44000000 mpich.MPI_SUCCESS ⟨2, 9, 0, 4⟩,
            Event.Get_count ⟨2, 9, 0, 4⟩ mpich.MPI_BYTE 0 cret n] ∧
        ((ogo_MPI_Probe_bytes mpich (mailbox mpich) ⟨2, 9, 77⟩).run
          [⟨2, 9, [1, 2, 3, 4]⟩]).1.2.d2 = n :=
  ⟨by decide, by decide,
    probe_bytes_length mpich (mailbox mpich) [⟨2, 9, [1, 2, 3, 4]⟩] ⟨2, 9, 77⟩ 2 9
      0x44000000 ⟨2, 9, 0, 4⟩ (by decide)⟩

/-- C4 (status code).  `ogo_MPI_Probe_bytes` always issues a probe first; it
returns `MPI_SUCCESS` exactly when the log holds a probe answered with
`MPI_SUCCESS` and a count query answered with `MPI_SUCCESS`; a probe answered
with another code makes the helper return that code; and after a successful
probe the helper returns the code the count query answered with. -/
theorem probe_bytes_status (c : MPIConsts) (S : Substrate σ Time) (s : σ) (data : Triple) :
    (∃ src tag pret stat, ((ogo_MPI_Probe_bytes c S data).run s).2.log.head? =
      some (Event.Probe src tag c.MPI_COMM_WORLD pret stat)) ∧
    (((ogo_MPI_Probe_bytes c S data).run s).1.1 = c.MPI_SUCCESS ↔
      (∃ src tag comm stat, Event.Probe src tag comm c.MPI_SUCCESS stat ∈
        ((ogo_MPI_Probe_bytes c S data).run s).2.log) ∧
      (∃ stat datatype cin n, Event.Get_count stat datatype cin c.MPI_SUCCESS n ∈
        ((ogo_MPI_Probe_bytes c S data).run s).2.log)) ∧
    (∀ src tag comm pret stat,
      Event.Probe src tag comm pret stat ∈ ((ogo_MPI_Probe_bytes c S data).run s).2.log →
      pret ≠ c.MPI_SUCCESS → ((ogo_MPI_Probe_bytes c S data).run s).1.1 = pret) ∧
    (∀ src tag comm stat,
      Event.Probe src tag comm c.MPI_SUCCESS stat ∈
        ((ogo_MPI_Probe_bytes c S data).run s).2.log →
      ∃ cret n, Event.Get_count stat c.MPI_BYTE 0 cret n ∈
          ((ogo_MPI_Probe_bytes c S data).run s).2.log ∧
        ((ogo_MPI_Probe_bytes c S data).run s).1.1 = cret) := by
  rcases probe_run_cases c S s data with ⟨pret, st0, w, hne, hrun⟩ | ⟨st0, cret, n, w, hrun⟩
  · rw [hrun]
    refine ⟨⟨_, _, pret, st0, rfl⟩, ?_, ?_, ?_⟩
    · simp [hne]
    · intro src tag comm p stat hmem _
      simp at hmem
      exact hmem.2.2.2.1.symm
    · intro src tag comm stat hmem
      simp at hmem
      exact absurd hmem.2.2.2.1.symm hne
  · rw [hrun]
    refine ⟨⟨_, _, c.MPI_SUCCESS, st0, rfl⟩, ?_, ?_, ?_⟩
    · constructor
      · intro hret
        simp at hret
        exact ⟨⟨requestedSource c data, requestedTag c data, c.MPI_COMM_WORLD, st0, by simp⟩,
          ⟨st0, c.MPI_BYTE, 0, n, by simp [hret]⟩⟩
      · rintro ⟨_, stat, datatype, cin, m, hmem⟩
        simp at hmem
        exact hmem.2.2.2.1.symm
    · intro src tag comm p stat hmem hp
      simp at hmem
      exact absurd hmem.2.2.2.1 hp
    · intro src tag comm stat hmem
      simp at hmem
      exact ⟨cret, n, by simp [hmem.2.2.2], rfl⟩

/-- C4, evaluated: the probe succeeds and the count query answers with code
`3`, which is what the helper returns. -/
theorem probe_bytes_status_witness :
    Event.Probe (-2) 5 0x44000000 mpich.MPI_SUCCESS ⟨3, 5, 0, 8⟩ ∈
        ((ogo_MPI_Probe_bytes mpich (scripted 0 ⟨3, 5, 0, 8⟩ 3 none) ⟨-42, 5, 7⟩).run
          ()).2.log ∧
      ((ogo_MPI_Probe_bytes mpich (scripted 0 ⟨3, 5, 0, 8⟩ 3 none) ⟨-42, 5, 7⟩).run
          ()).1.1 = 3 ∧
      ∃ cret n, Event.Get_count ⟨3, 5, 0, 8⟩ mpich.MPI_BYTE 0 cret n ∈
          ((ogo_MPI_Probe_bytes mpich (scripted 0 ⟨3, 5, 0, 8⟩ 3 none) ⟨-42, 5, 7⟩).run
            ()).2.log ∧
        ((ogo_MPI_Probe_bytes mpich (scripted 0 ⟨3, 5, 0, 8⟩ 3 none) ⟨-42, 5, 7⟩).run
          ()).1.1 = cret :=
  ⟨by decide, by decide,
    (probe_bytes_status mpich (scripted 0 ⟨3, 5, 0, 8⟩ 3 none) () ⟨-42, 5, 7⟩).2.2.2
      (-2) 5 0x44000000 ⟨3, 5, 0, 8⟩ (by decide)⟩

/-- C5 (probe failure).  If the probe issued by `ogo_MPI_Probe_bytes` is
answered with a code other than `MPI_SUCCESS`, the probe is the only
substrate call (no count query), the helper returns that code and the triple
is exactly the input triple. -/
theorem probe_bytes_probe_failure (c : MPIConsts) (S : Substrate σ Time) (s : σ)
    (data : Triple) (src tag comm pret : Int) (stat : MPI_Status)
    (h : Event.Probe src tag comm pret stat ∈ ((ogo_MPI_Probe_bytes c S data).run s).2.log)
    (hne : pret ≠ c.MPI_SUCCESS) :
    ((ogo_MPI_Probe_bytes c S data).run s).2.log = [Event.Probe src tag comm pret stat] ∧
    ((ogo_MPI_Probe_bytes c S data).run s).1.1 = pret ∧
    ((ogo_MPI_Probe_bytes c S data).run s).1.2 = data := by
  rcases probe_run_cases c S s data with ⟨p, st0, w, _, hrun⟩ | ⟨st0, cret, n, w, hrun⟩
  · rw [hrun] at h ⊢
    simp at h
    obtain ⟨hs, ht, hc, hp, hst⟩ := h
    subst hs ht hc hp hst
    exact ⟨rfl, rfl, rfl⟩
  · rw [hrun] at h
    simp at h
    exact absurd h.2.2.2.1 hne

/-- C5, evaluated: the probe is answered with code `16`; the sentinels and
the third entry are still in place. -/
theorem probe_bytes_probe_failure_witness :
    (16 : Int) ≠ mpich.MPI_SUCCESS ∧
      ((ogo_MPI_Probe_bytes mpich (scripted 16 ⟨0, 0, 0, 0⟩ 0 (some 8)) ⟨-42, -42, 7⟩).run
        ()).2.log = [Event.Probe (-2) (-1) 0x44000000 16 ⟨0, 0, 0, 0⟩] ∧
      ((ogo_MPI_Probe_bytes mpich (scripted 16 ⟨0, 0, 0, 0⟩ 0 (some 8)) ⟨-42, -42, 7⟩).run
        ()).1.1 = 16 ∧
      ((ogo_MPI_Probe_bytes mpich (scripted 16 ⟨0, 0, 0, 0⟩ 0 (some 8)) ⟨-42, -42, 7⟩).run
        ()).1.2 = ⟨-42, -42, 7⟩ :=
  ⟨by decide,
    probe_bytes_probe_failure mpich (scripted 16 ⟨0, 0, 0, 0⟩ 0 (some 8)) () ⟨-42, -42, 7⟩
      (-2) (-1) 0x44000000 16 ⟨0, 0, 0, 0⟩ (by decide) (by decide)⟩

/-- C7 (third entry unused).  Two input triples that agree on `data[0]` and
`data[1]` lead, on the same substrate in the same state, to the same logged
calls and answers, the same substrate state and the same returned code, and
whenever the probe succeeded to the same resulting triple. -/
theorem probe_bytes_third_entry_unused (c : MPIConsts) (S : Substrate σ Time) (s : σ)
    (d0 d1 x y : Int) :
    ((ogo_MPI_Probe_bytes c S ⟨d0, d1, x⟩).run s).2.log =
      ((ogo_MPI_Probe_bytes c S ⟨d0, d1, y⟩).run s).2.log ∧
    ((ogo_MPI_Probe_bytes c S ⟨d0, d1, x⟩).run s).2.st =
      ((ogo_MPI_Probe_bytes c S ⟨d0, d1, y⟩).run s).2.st ∧
    ((ogo_MPI_Probe_bytes c S ⟨d0, d1, x⟩).run s).1.1 =
      ((ogo_MPI_Probe_bytes c S ⟨d0, d1, y⟩).run s).1.1 ∧
    ((∃ src tag comm stat, Event.Probe src tag comm c.MPI_SUCCESS stat ∈
        ((ogo_MPI_Probe_bytes c S ⟨d0, d1, x⟩).run s).2.log) →
      ((ogo_MPI_Probe_bytes c S ⟨d0, d1, x⟩).run s).1.2 =
        ((ogo_MPI_Probe_bytes c S ⟨d0, d1, y⟩).run s).1.2) := by
  have hs : requestedSource c ⟨d0, d1, x⟩ = requestedSource c ⟨d0, d1, y⟩ := rfl
  have ht : requestedTag c ⟨d0, d1, x⟩ = requestedTag c ⟨d0, d1, y⟩ := rfl
  by_cases hp : (S.MPI_Probe s (requestedSource c ⟨d0, d1, x⟩) (requestedTag c ⟨d0, d1, x⟩)
      c.MPI_COMM_WORLD).1 = c.MPI_SUCCESS
  · have hq := hp
    rw [hs, ht] at hq
    rw [probe_run_ok c S s _ hp, probe_run_ok c S s _ hq]
    refine ⟨rfl, rfl, rfl, fun _ => rfl⟩
  · have hq := hp
    rw [hs, ht] at hq
    rw [probe_run_fail c S s _ hp, probe_run_fail c S s _ hq]
    refine ⟨rfl, rfl, rfl, fun hmem => ?_⟩
    obtain ⟨src, tag, comm, stat, hmem⟩ := hmem
    simp at hmem
    exact absurd hmem.2.2.2.1.symm hp

/-- C7, evaluated: third entries `7` and `1000` give the same triple. -/
theorem probe_bytes_third_entry_unused_witness :
    (∃ src tag comm stat, Event.Probe src tag comm mpich.MPI_SUCCESS stat ∈
        ((ogo_MPI_Probe_bytes mpich (scripted 0 ⟨3, 5, 0, 8⟩ 0 (some 8)) ⟨-42, 5, 7⟩).run
          ()).2.log) ∧
      ((ogo_MPI_Probe_bytes mpich (scripted 0 ⟨3, 5, 0, 8⟩ 0 (some 8)) ⟨-42, 5, 7⟩).run
          ()).1.2 = ⟨3, 5, 8⟩ ∧
      ((ogo_MPI_Probe_bytes mpich (scripted 0 ⟨3, 5, 0, 8⟩ 0 (some 8)) ⟨-42, 5, 7⟩).run
          ()).1.2 =
        ((ogo_MPI_Probe_bytes mpich (scripted 0 ⟨3, 5, 0, 8⟩ 0 (some 8)) ⟨-42, 5, 1000⟩).run
          ()).1.2 :=
  ⟨⟨-2, 5, 0x44000000, ⟨3, 5, 0, 8⟩, by decide⟩, by decide,
    (probe_bytes_third_entry_unused mpich (scripted 0 ⟨3, 5, 0, 8⟩ 0 (some 8)) ()
      (-42) 5 7 1000).2.2.2 ⟨-2, 5, 0x44000000, ⟨3, 5, 0, 8⟩, by decide⟩⟩

/-- C8 (probing is non-destructive).  The substrate calls issued by
`ogo_MPI_Probe_bytes` are one probe on `MPI_COMM_WORLD`, followed by at most
one count query on the status that probe returned; no receive is issued; and
anything observable of the substrate state that probes and count queries
leave alone (such as the pending messages) is the same after the call as
before it. -/
theorem probe_bytes_non_destructive (c : MPIConsts) (S : Substrate σ Time) (s : σ)
    (data : Triple) :
    (∃ src tag pret stat,
      ((ogo_MPI_Probe_bytes c S data).run s).2.log =
        [Event.Probe src tag c.MPI_COMM_WORLD pret stat] ∨
      ∃ cin cret n, ((ogo_MPI_Probe_bytes c S data).run s).2.log =
        [Event.Probe src tag c.MPI_COMM_WORLD pret stat,
          Event.Get_count stat c.MPI_BYTE cin cret n]) ∧
    (∀ buf count datatype src tag comm ret bufOut stat,
      Event.Recv buf count datatype src tag comm ret bufOut stat ∉
        ((ogo_MPI_Probe_bytes c S data).run s).2.log) ∧
    (∀ (P : Type) (pending : σ → P),
      (∀ t src tag comm, pending (S.MPI_Probe t src tag comm).2.2 = pending t) →
      (∀ t stat datatype n, pending (S.MPI_Get_count t stat datatype n).2.2 = pending t) →
      pending ((ogo_MPI_Probe_bytes c S data).run s).2.st = pending s) := by
  by_cases hp : (S.MPI_Probe s (requestedSource c data) (requestedTag c data)
      c.MPI_COMM_WORLD).1 = c.MPI_SUCCESS
  · rw [probe_run_ok c S s data hp]
    refine ⟨⟨_, _, _, _, Or.inr ⟨_, _, _, rfl⟩⟩, ?_, ?_⟩
    · intro buf count datatype src tag comm ret bufOut stat hmem
      simp at hmem
    · intro P pending h1 h2
      simp only [h2, h1]
  · rw [probe_run_fail c S s data hp]
    refine ⟨⟨_, _, _, _, Or.inl rfl⟩, ?_, ?_⟩
    · intro buf count datatype src tag comm ret bufOut stat hmem
      simp at hmem
    · intro P pending h1 _
      simp only [h1]

/-- C8, evaluated on the sample mailbox: the message found by a wildcard
probe is still pending afterwards. -/
theorem probe_bytes_non_destructive_witness :
    ((ogo_MPI_Probe_bytes mpich (mailbox mpich) ⟨-42, -42, 0⟩).run
        [⟨2, 9, [1, 2, 3, 4]⟩]).1 = (0, ⟨2, 9, 4⟩) ∧
      ((ogo_MPI_Probe_bytes mpich (mailbox mpich) ⟨-42, -42, 0⟩).run
        [⟨2, 9, [1, 2, 3, 4]⟩]).2.st = [⟨2, 9, [1, 2, 3, 4]⟩] :=
  ⟨by decide,
    (probe_bytes_non_destructive mpich (mailbox mpich) [⟨2, 9, [1, 2, 3, 4]⟩]
      ⟨-42, -42, 0⟩).2.2 (List Msg) id
      (by intro t src tag comm; simp only [mailbox, id]; split <;> rfl)
      (by intro t stat datatype n; simp only [mailbox, id]; split <;> rfl)⟩

/-- C10 (count query failure).  If the log of `ogo_MPI_Probe_bytes` holds a
count query answered with a code other than `MPI_SUCCESS`, then the probe
before it succeeded, the helper returns the count query's failure code, and the
triple has been written: a field that was `-42` holds the value from the
probe status, and `data[2]` holds the content the count query left in the
count cell, which started as `0` (so `0` if the query stored nothing). -/
theorem probe_bytes_count_failure (c : MPIConsts) (S : Substrate σ Time) (s : σ)
    (data : Triple) (stat : MPI_Status) (datatype cin cret n : Int)
    (h : Event.Get_count stat datatype cin cret n ∈
      ((ogo_MPI_Probe_bytes c S data).run s).2.log)
    (hne : cret ≠ c.MPI_SUCCESS) :
    (∃ src tag, ((ogo_MPI_Probe_bytes c S data).run s).2.log =
      [Event.Probe src tag c.MPI_COMM_WORLD c.MPI_SUCCESS stat,
        Event.Get_count stat c.MPI_BYTE 0 cret n]) ∧
    ((ogo_MPI_Probe_bytes c S data).run s).1.1 = cret ∧
    ((ogo_MPI_Probe_bytes c S data).run s).1.1 ≠ c.MPI_SUCCESS ∧
    (data.d0 = -42 → ((ogo_MPI_Probe_bytes c S data).run s).1.2.d0 = stat.MPI_SOURCE) ∧
    (data.d1 = -42 → ((ogo_MPI_Probe_bytes c S data).run s).1.2.d1 = stat.MPI_TAG) ∧
    ((ogo_MPI_Probe_bytes c S data).run s).1.2.d2 = n ∧
    cin = 0 ∧ (n = cin → ((ogo_MPI_Probe_bytes c S data).run s).1.2.d2 = 0) := by
  rcases probe_run_cases c S s data with ⟨p, st0, w, _, hrun⟩ | ⟨st0, r, m, w, hrun⟩
  · rw [hrun] at h
    simp at h
  · rw [hrun] at h ⊢
    simp at h
    obtain ⟨hst, _, hc, hr, hn⟩ := h
    subst hst hc hr hn
    refine ⟨⟨_, _, rfl⟩, rfl, hne, fun h0 => ?_, fun h1 => ?_, rfl, rfl, fun hz => ?_⟩
    · simp [resolvedTriple, requestedSource, h0]
    · simp [resolvedTriple, requestedTag, h1]
    · simp [resolvedTriple, hz]

/-- C10, evaluated: the probe succeeds, the count query answers with code
`3` and stores nothing; the helper returns `3` and the triple
`[-42, -42, 7]` has become `[3, 5, 0]`. -/
theorem probe_bytes_count_failure_witness :
    (3 : Int) ≠ mpich.MPI_SUCCESS ∧
      ((ogo_MPI_Probe_bytes mpich (scripted 0 ⟨3, 5, 0, 8⟩ 3 none) ⟨-42, -42, 7⟩).run
        ()).1 = (3, ⟨3, 5, 0⟩) ∧
      ((ogo_MPI_Probe_bytes mpich (scripted 0 ⟨3, 5, 0, 8⟩ 3 none) ⟨-42, -42, 7⟩).run
        ()).1.2 ≠ ⟨-42, -42, 7⟩ ∧
      ((ogo_MPI_Probe_bytes mpich (scripted 0 ⟨3, 5, 0, 8⟩ 3 none) ⟨-42, -42, 7⟩).run
        ()).1.1 = 3 :=
  ⟨by decide, by decide, by decide,
    (probe_bytes_count_failure mpich (scripted 0 ⟨3, 5, 0, 8⟩ 3 none) () ⟨-42, -42, 7⟩
      ⟨3, 5, 0, 8⟩ mpich.MPI_BYTE 0 3 0 (by decide) (by decide)).2.1⟩

end ProbeClaims

/-! ## The forwarding functions -/

section Forwards

variable {σ Time : Type}

/-- C6 (verbatim forwards).  Each helper other than `ogo_MPI_Probe_bytes`
makes exactly one substrate call, with the caller's arguments unchanged, the
communicator `MPI_COMM_WORLD` where the call takes one and the datatype
`MPI_BYTE` (`MPI_CHAR` for the broadcast), and returns the substrate's answer
unchanged; in particular `ogo_MPI_Recv_bytes` with source and tag `-42` asks
the substrate for source `-42` and tag `-42`. -/
theorem forwards_verbatim (c : MPIConsts) (S : Substrate σ Time) (s : σ) :
    ((ogo_MPI_Init S).run s =
      ((S.MPI_Init s none none).1,
        ⟨(S.MPI_Init s none none).2, [Event.Init none none (S.MPI_Init s none none).1]⟩)) ∧
    (∀ err, (ogo_MPI_Abort c S err).run s =
      ((S.MPI_Abort s c.MPI_COMM_WORLD err).1,
        ⟨(S.MPI_Abort s c.MPI_COMM_WORLD err).2,
          [Event.Abort c.MPI_COMM_WORLD err (S.MPI_Abort s c.MPI_COMM_WORLD err).1]⟩)) ∧
    ((ogo_MPI_Finalize S).run s =
      ((S.MPI_Finalize s).1, ⟨(S.MPI_Finalize s).2, [Event.Finalize (S.MPI_Finalize s).1]⟩)) ∧
    (∀ rank, (ogo_MPI_Comm_rank c S rank).run s =
      (((S.MPI_Comm_rank s c.MPI_COMM_WORLD rank).1,
          (S.MPI_Comm_rank s c.MPI_COMM_WORLD rank).2.1),
        ⟨(S.MPI_Comm_rank s c.MPI_COMM_WORLD rank).2.2,
          [Event.Comm_rank c.MPI_COMM_WORLD rank (S.MPI_Comm_rank s c.MPI_COMM_WORLD rank).1
            (S.MPI_Comm_rank s c.MPI_COMM_WORLD rank).2.1]⟩)) ∧
    (∀ size, (ogo_MPI_Comm_size c S size).run s =
      (((S.MPI_Comm_size s c.MPI_COMM_WORLD size).1,
          (S.MPI_Comm_size s c.MPI_COMM_WORLD size).2.1),
        ⟨(S.MPI_Comm_size s c.MPI_COMM_WORLD size).2.2,
          [Event.Comm_size c.MPI_COMM_WORLD size (S.MPI_Comm_size s c.MPI_COMM_WORLD size).1
            (S.MPI_Comm_size s c.MPI_COMM_WORLD size).2.1]⟩)) ∧
    ((ogo_MPI_Wtime S).run s =
      ((S.MPI_Wtime s).1, ⟨(S.MPI_Wtime s).2, [Event.Wtime (S.MPI_Wtime s).1]⟩)) ∧
    (∀ buffer count source tag, (ogo_MPI_Recv_bytes c S buffer count source tag).run s =
      (((S.MPI_Recv s buffer count c.MPI_BYTE source tag c.MPI_COMM_WORLD).1,
          (S.MPI_Recv s buffer count c.MPI_BYTE source tag c.MPI_COMM_WORLD).2.1),
        ⟨(S.MPI_Recv s buffer count c.MPI_BYTE source tag c.MPI_COMM_WORLD).2.2.2,
          [Event.Recv buffer count c.MPI_BYTE source tag c.MPI_COMM_WORLD
            (S.MPI_Recv s buffer count c.MPI_BYTE source tag c.MPI_COMM_WORLD).1
            (S.MPI_Recv s buffer count c.MPI_BYTE source tag c.MPI_COMM_WORLD).2.1
            (S.MPI_Recv s buffer count c.MPI_BYTE source tag c.MPI_COMM_WORLD).2.2.1]⟩)) ∧
    (∀ buffer count dest tag, (ogo_MPI_Send_bytes c S buffer count dest tag).run s =
      ((S.MPI_Send s buffer count c.MPI_BYTE dest tag c.MPI_COMM_WORLD).1,
        ⟨(S.MPI_Send s buffer count c.MPI_BYTE dest tag c.MPI_COMM_WORLD).2,
          [Event.Send buffer count c.MPI_BYTE dest tag c.MPI_COMM_WORLD
            (S.MPI_Send s buffer count c.MPI_BYTE dest tag c.MPI_COMM_WORLD).1]⟩)) ∧
    (∀ buffer count root, (ogo_MPI_Bcast_char c S buffer count root).run s =
      (((S.MPI_Bcast s buffer count c.MPI_CHAR root c.MPI_COMM_WORLD).1,
          (S.MPI_Bcast s buffer count c.MPI_CHAR root c.MPI_COMM_WORLD).2.1),
        ⟨(S.MPI_Bcast s buffer count c.MPI_CHAR root c.MPI_COMM_WORLD).2.2,
          [Event.Bcast buffer count c.MPI_CHAR root c.MPI_COMM_WORLD
            (S.MPI_Bcast s buffer count c.MPI_CHAR root c.MPI_COMM_WORLD).1
            (S.MPI_Bcast s buffer count c.MPI_CHAR root c.MPI_COMM_WORLD).2.1]⟩)) ∧
    (∀ buffer count, ∃ ret bufOut stat,
      ((ogo_MPI_Recv_bytes c S buffer count (-42) (-42)).run s).2.log =
        [Event.Recv buffer count c.MPI_BYTE (-42) (-42) c.MPI_COMM_WORLD ret bufOut stat]) := by
  refine ⟨rfl, fun _ => rfl, rfl, fun _ => rfl, fun _ => rfl, rfl, fun _ _ _ _ => rfl,
    fun _ _ _ _ => rfl, fun _ _ _ => rfl, fun _ _ => ⟨_, _, _, rfl⟩⟩

end Forwards

/-! ## Send followed by receive -/

section RoundTrip

variable {σ Time : Type}

/-- The sample mailbox delivers: starting from an empty mailbox, every
payload sent by rank 0 to itself is handed to the matching receive. -/
theorem mailbox_delivers (c : MPIConsts) (B : Buffer) (T : Int) :
    DeliveryGuarantee c (mailbox c) (mailbox c) 0 0 [] B T := by
  intro R count _ hcount
  simp [mailbox, Msg.matches, hcount]

/-- C9 (round trip).  Let the library deliver (`DeliveryGuarantee`) the bytes
`B` from the process of rank `a` to the process of rank `b` with tag `T`.  If
`ogo_MPI_Send_bytes` on `a`, called with `B`, its length, destination `b` and
tag `T`, returns `MPI_SUCCESS`, then `ogo_MPI_Recv_bytes` on `b` with source
`a`, tag `T` and a count of at least the length of `B` returns `MPI_SUCCESS`
and the first bytes of the receive buffer are `B`. -/
theorem send_recv_round_trip (c : MPIConsts) (SA SB : Substrate σ Time) (a b : Int) (s : σ)
    (B : Buffer) (T : Int) (R : Buffer) (count : Int)
    (hlib : DeliveryGuarantee c SA SB a b s B T)
    (hsend : ((ogo_MPI_Send_bytes c SA B B.length b T).run s).1 = c.MPI_SUCCESS)
    (hcount : (B.length : Int) ≤ count) :
    ((ogo_MPI_Recv_bytes c SB R count a T).run
        ((ogo_MPI_Send_bytes c SA B B.length b T).run s).2.st).1.1 = c.MPI_SUCCESS ∧
    ((ogo_MPI_Recv_bytes c SB R count a T).run
        ((ogo_MPI_Send_bytes c SA B B.length b T).run s).2.st).1.2.take B.length = B := by
  have hs : (SA.MPI_Send s B B.length c.MPI_BYTE b T c.MPI_COMM_WORLD).1 = c.MPI_SUCCESS :=
    hsend
  exact hlib R count hs hcount

/-- C9, evaluated on the sample mailbox: rank 0 sends four bytes with tag 7
to itself and receives them into a buffer of six bytes. -/
theorem send_recv_round_trip_witness :
    ((ogo_MPI_Send_bytes mpich (mailbox mpich) [1, 2, 3, 4]
        (([1, 2, 3, 4] : Buffer).length : Int) 0 7).run []).1 = mpich.MPI_SUCCESS ∧
      ((([1, 2, 3, 4] : Buffer).length : Int) ≤ 6) ∧
      ((ogo_MPI_Recv_bytes mpich (mailbox mpich) [0, 0, 0, 0, 0, 0] 6 0 7).run
        ((ogo_MPI_Send_bytes mpich (mailbox mpich) [1, 2, 3, 4]
          (([1, 2, 3, 4] : Buffer).length : Int) 0 7).run []).2.st).1 =
        (0, [1, 2, 3, 4, 0, 0]) ∧
      ((ogo_MPI_Recv_bytes mpich (mailbox mpich) [0, 0, 0, 0, 0, 0] 6 0 7).run
        ((ogo_MPI_Send_bytes mpich (mailbox mpich) [1, 2, 3, 4]
          (([1, 2, 3, 4] : Buffer).length : Int) 0 7).run []).2.st).1.2.take
          ([1, 2, 3, 4] : Buffer).length = [1, 2, 3, 4] :=
  ⟨by decide, by decide, by decide,
    (send_recv_round_trip mpich (mailbox mpich) (mailbox mpich) 0 0 [] [1, 2, 3, 4] 7
      [0, 0, 0, 0, 0, 0] 6 (mailbox_delivers mpich [1, 2, 3, 4] 7) (by decide)
      (by decide)).2⟩

end RoundTrip

end OgoMPI
